import Mathlib

/-!
Shallow embedding of the ARDP (Reliable Datagram Protocol) engine of
alljoyn_core/router/ArdpProtocol.cc, together with theorems settling the
frozen claims about it.  Machine integers are modelled as `Nat` with explicit
reduction modulo 2^32 (sequence numbers, lengths) or 2^16 (the `pending`
counter, fragment counts) exactly where the C code performs unsigned
wraparound.  The nonblocking UDP socket and the monotonic clock are passed in
as explicit parameters; user callbacks are recorded as events or supplied as
function parameters.
-/

namespace Ardp

/-- The modulus 2^32 of the C `uint32_t` arithmetic used for sequence numbers. -/
def U32 : Nat := 4294967296

/-- The modulus 2^16 of the C `uint16_t` arithmetic used for `SBUF.pending`. -/
def U16 : Nat := 65536

/-- uint32 subtraction `a - b` with wraparound, as performed by the C code. -/
def sub32 (a b : Nat) : Nat := (a % U32 + (U32 - b % U32)) % U32

/-- uint32 addition with wraparound. -/
def add32 (a b : Nat) : Nat := (a + b) % U32

/-- uint16 subtraction with wraparound (`conn->SBUF.pending--` on a `uint16_t`). -/
def sub16 (a b : Nat) : Nat := (a % U16 + (U16 - b % U16)) % U16

/-- uint16 addition with wraparound. -/
def add16 (a b : Nat) : Nat := (a + b) % U16

/-- SEQ32_LT(a, b) from ArdpProtocol.cc: `(int32_t)((uint32_t)a - (uint32_t)b) < 0`. -/
def seq32LT (a b : Nat) : Bool := decide (2147483648 ≤ sub32 a b)

/-- SEQ32_LET(a, b) from ArdpProtocol.cc: `SEQ32_LT(a, b) || a == b`. -/
def seq32LET (a b : Nat) : Bool := seq32LT a b || decide (a % U32 = b % U32)

/-- ARDP_TIMWAIT from ArdpProtocol.cc. -/
def ARDP_TIMWAIT : Nat := 1000

/-- ARDP_RETRANSMIT_TIMEOUT from ArdpProtocol.cc. -/
def ARDP_RETRANSMIT_TIMEOUT : Nat := 500

/-- ARDP_URGENT_RETRANSMIT_TIMEOUT = ARDP_RETRANSMIT_TIMEOUT >> 2. -/
def ARDP_URGENT_RETRANSMIT_TIMEOUT : Nat := 125

/-- ARDP_RETRANSMIT_RETRY from ArdpProtocol.cc. -/
def ARDP_RETRANSMIT_RETRY : Nat := 4

/-- ARDP_RECV_TIMEOUT from ArdpProtocol.cc. -/
def ARDP_RECV_TIMEOUT : Nat := 300

/-- ARDP_RECV_RETRY from ArdpProtocol.cc. -/
def ARDP_RECV_RETRY : Nat := 4

/-- ARDP_RETRY_ALWAYS sentinel (0xffff) from ArdpProtocol.cc. -/
def ARDP_RETRY_ALWAYS : Nat := 65535

/-- Modelled from the spec: ARDP_NO_TIMEOUT sentinel of ArdpProtocol.h (absent from
src/), the uint32 "no scheduled timer" value tested by CheckConnTimers; the
natural sentinel for a `uint32_t` deadline is the maximal value 0xffffffff. -/
def ardpNoTimeout : Nat := 4294967295

/-- Modelled from the spec: segment flag bit values from the wire-format table of
spec section 4.1 (ArdpProtocol.h is absent from src/). -/
def ARDP_FLAG_SYN : Nat := 1

/-- Modelled from the spec: the ACK flag bit (section 4.1 of the spec). -/
def ARDP_FLAG_ACK : Nat := 2

/-- Modelled from the spec: the EACK flag bit (section 4.1 of the spec). -/
def ARDP_FLAG_EACK : Nat := 4

/-- Modelled from the spec: the RST flag bit (section 4.1 of the spec). -/
def ARDP_FLAG_RST : Nat := 8

/-- Modelled from the spec: the NUL flag bit (section 4.1 of the spec). -/
def ARDP_FLAG_NUL : Nat := 16

/-- Modelled from the spec: the FRAG flag bit (section 4.1 of the spec). -/
def ARDP_FLAG_FRAG : Nat := 32

/-- Modelled from the spec: the VER flag bit (section 4.1 of the spec). -/
def ARDP_FLAG_VER : Nat := 64

/-- The subset of QStatus codes produced by the ARDP core. -/
inductive QStatus where
  | ER_OK
  | ER_FAIL
  | ER_WOULDBLOCK
  | ER_ARDP_BACKPRESSURE
  | ER_ARDP_TTL_EXPIRED
  | ER_ARDP_INVALID_STATE
  | ER_INVALID_DATA
  | ER_OUT_OF_MEMORY
  deriving DecidableEq, Repr

export QStatus (ER_OK ER_FAIL ER_WOULDBLOCK ER_ARDP_BACKPRESSURE ER_ARDP_TTL_EXPIRED ER_ARDP_INVALID_STATE ER_INVALID_DATA)

/-- The connection states of the ArdpState enum. -/
inductive ArdpState where
  | CLOSED
  | LISTEN
  | SYN_SENT
  | SYN_RCVD
  | OPEN
  | CLOSE_WAIT
  deriving DecidableEq, Repr

/-- The timer types of the ArdpTimerType enum. -/
inductive ArdpTimerType where
  | DISCONNECT_TIMER
  | CONNECT_TIMER
  | RETRANSMIT_TIMER
  | RECV_TIMER
  | WINDOW_CHECK_TIMER
  deriving DecidableEq, Repr

/-- One timer record of the per-connection timer list (struct ArdpTimer).  The C
record's `context` pointer is modelled by `slot`: the send- or receive-slot
index for RETRANSMIT/RECV timers, none for connection-level timers.  `tid` is a
stable identity standing in for the record's address, so that the slot's
`timer` pointer and the list membership can alias the same record. -/
structure ArdpTimer where
  tid : Nat
  type : ArdpTimerType
  delta : Nat
  when : Nat
  retry : Nat
  slot : Option Nat
  deriving DecidableEq, Repr

/-- The header fields of a send-slot's owned header buffer (struct ArdpHeader),
kept in host order. -/
structure ArdpHdr where
  flags : Nat
  hlen : Nat
  src : Nat
  dst : Nat
  dlen : Nat
  seq : Nat
  ack : Nat
  window : Nat
  ttl : Nat
  som : Nat
  fcnt : Nat
  deriving DecidableEq, Repr

/-- The all-zero header, the state of a freshly memset send ring. -/
def hdrZero : ArdpHdr :=
  { flags := 0, hlen := 0, src := 0, dst := 0, dlen := 0, seq := 0, ack := 0,
    window := 0, ttl := 0, som := 0, fcnt := 0 }

/-- One send slot (struct ArdpSndBuf).  `data` models the borrowed payload
pointer as an abstract address; `timer` holds the identity of the slot's
retransmit timer, when armed. -/
structure ArdpSndBuf where
  data : Nat
  datalen : Nat
  hdr : ArdpHdr
  timer : Option Nat
  ttl : Nat
  tStart : Nat
  onTheWire : Bool
  inUse : Bool
  hdrlen : Nat
  deriving DecidableEq, Repr

/-- The all-zero send slot, the state after InitSBUF's memset. -/
def sndBufZero : ArdpSndBuf :=
  { data := 0, datalen := 0, hdr := hdrZero, timer := none, ttl := 0, tStart := 0,
    onTheWire := false, inUse := false, hdrlen := 0 }

/-- One receive slot (struct ArdpRcvBuf).  The intrusive `next` link of the C
struct is the ring successor, recovered as index + 1 mod RCV.MAX. -/
structure ArdpRcvBuf where
  data : List Nat
  datalen : Nat
  seq : Nat
  som : Nat
  fcnt : Nat
  inUse : Bool
  isDelivered : Bool
  timer : Option Nat
  deriving DecidableEq, Repr

/-- The all-zero receive slot. -/
def rcvBufZero : ArdpRcvBuf :=
  { data := [], datalen := 0, seq := 0, som := 0, fcnt := 0, inUse := false,
    isDelivered := false, timer := none }

/-- struct ArdpSnd: the send-sequence state. -/
structure ArdpSnd where
  NXT : Nat
  UNA : Nat
  MAX : Nat
  ISS : Nat
  deriving DecidableEq, Repr

/-- struct ArdpSbuf: the send-buffer state; `snd` is the ring of SND.MAX slots. -/
structure ArdpSbuf where
  MAX : Nat
  snd : List ArdpSndBuf
  maxDlen : Nat
  pending : Nat
  deriving DecidableEq, Repr

/-- struct ArdpRcv: the receive-sequence state. -/
structure ArdpRcv where
  CUR : Nat
  MAX : Nat
  IRS : Nat
  deriving DecidableEq, Repr

/-- struct ArdpRbuf: the receive-buffer state; `rcv` is the ring of RCV.MAX slots. -/
structure ArdpRbuf where
  MAX : Nat
  rcv : List ArdpRcvBuf
  first : Nat
  last : Nat
  window : Nat
  deriving DecidableEq, Repr

/-- struct ArdpRcvMsk: the EACK bitmask state (host-order words; the parallel
network-order copy htnMask carries the same information and is not modelled
separately). -/
structure ArdpRcvMsk where
  mask : List Nat
  sz : Nat
  fixedSz : Nat
  deriving DecidableEq, Repr

/-- struct ARDP_CONN_RECORD.  The C fields `local` and `foreign` are renamed
`localPort` and `foreignPort` because `local` is reserved in Lean.  `nextTid`
is the allocator for timer identities (standing in for heap addresses). -/
structure ArdpConnRecord where
  STATE : ArdpState
  passive : Bool
  SND : ArdpSnd
  SBUF : ArdpSbuf
  RCV : ArdpRcv
  RBUF : ArdpRbuf
  localPort : Nat
  foreignPort : Nat
  window : Nat
  minSendWindow : Nat
  sndHdrLen : Nat
  rcvHdrLen : Nat
  rcvMsk : ArdpRcvMsk
  remoteMskSz : Nat
  lastSeen : Nat
  timers : List ArdpTimer
  nextTid : Nat
  deriving DecidableEq, Repr

/-- Observable effects of an operation: datagrams handed to the socket and user
callbacks invoked. -/
inductive Event where
  | emitData (seq dlen : Nat)
  | emitCtl (flags seq ack window : Nat)
  | emitRst
  | sendCbEv (buf len : Nat) (status : QStatus)
  | recvCbEv (seq : Nat) (accepted : Bool)
  deriving DecidableEq, Repr

/-- Read send slot `i` (the C code indexes the `snd` array directly). -/
def getSnd (c : ArdpConnRecord) (i : Nat) : ArdpSndBuf := c.SBUF.snd.getD i sndBufZero

/-- Write send slot `i`. -/
def setSnd (c : ArdpConnRecord) (i : Nat) (s : ArdpSndBuf) : ArdpConnRecord :=
  { c with SBUF := { c.SBUF with snd := c.SBUF.snd.set i s } }

/-- Read receive slot `i`. -/
def getRcv (c : ArdpConnRecord) (i : Nat) : ArdpRcvBuf := c.RBUF.rcv.getD i rcvBufZero

/-- Write receive slot `i`. -/
def setRcv (c : ArdpConnRecord) (i : Nat) (s : ArdpRcvBuf) : ArdpConnRecord :=
  { c with RBUF := { c.RBUF with rcv := c.RBUF.rcv.set i s } }

/-- Set SBUF.pending. -/
def setPending (c : ArdpConnRecord) (p : Nat) : ArdpConnRecord :=
  { c with SBUF := { c.SBUF with pending := p } }

/-- AddTimer from ArdpProtocol.cc: allocate a timer with deadline now + timeout
and append it at the tail of the connection's timer list (EnList at
conn->timers.bwd).  Returns the new timer's identity. -/
def addTimer (c : ArdpConnRecord) (ty : ArdpTimerType) (timeout now retry : Nat)
    (slot : Option Nat) : ArdpConnRecord × Nat :=
  let t : ArdpTimer :=
    { tid := c.nextTid, type := ty, delta := timeout, when := now + timeout,
      retry := retry, slot := slot }
  ({ c with timers := c.timers ++ [t], nextTid := c.nextTid + 1 }, c.nextTid)

/-- DeleteTimer from ArdpProtocol.cc: unlink the record with identity `tid`. -/
def delTimer (c : ArdpConnRecord) (tid : Nat) : ArdpConnRecord :=
  { c with timers := c.timers.filter (fun t => t.tid ≠ tid) }

/-- Write the retry field of the timer with identity `tid` (the handlers mutate
the shared record through the slot's pointer). -/
def setTimerRetry (c : ArdpConnRecord) (tid r : Nat) : ArdpConnRecord :=
  { c with timers := c.timers.map (fun t => if t.tid = tid then { t with retry := r } else t) }

/-- Write the delta and retry fields of the timer with identity `tid`. -/
def setTimerDeltaRetry (c : ArdpConnRecord) (tid d r : Nat) : ArdpConnRecord :=
  { c with
    timers := c.timers.map (fun t => if t.tid = tid then { t with delta := d, retry := r } else t) }

/-- Look up a timer record by identity. -/
def findTimer (c : ArdpConnRecord) (tid : Nat) : Option ArdpTimer :=
  c.timers.find? (fun t => t.tid = tid)

/-- SendMsgData from ArdpProtocol.cc.  The slot's header receives the current
cumulative ack and receive window and the EACK flag is set or cleared from
rcvMsk.sz; then, for a segment with a nonzero TTL that has never been on the
wire, the elapsed time (uint32 now - tStart, `now` being the TimeNow value
inside the call) is compared against the TTL and the segment is dropped with
ER_ARDP_TTL_EXPIRED before anything reaches the socket.  The two
TTL-on-retransmit branches of the source are empty and have no effect.
Otherwise onTheWire is set and the datagram is handed to sendmsg, whose
outcome is the parameter `sock`; only a successful sendmsg emits a datagram. -/
def sendMsgData (c : ArdpConnRecord) (sb : ArdpSndBuf) (now : Nat) (sock : QStatus) :
    QStatus × ArdpSndBuf × List Event :=
  let h1 := { sb.hdr with ack := c.RCV.CUR, window := c.RBUF.window }
  let h2 := if c.rcvMsk.sz = 0 then { h1 with flags := h1.flags &&& (255 - ARDP_FLAG_EACK) }
            else { h1 with flags := h1.flags ||| ARDP_FLAG_EACK }
  let sb1 := { sb with hdr := h2 }
  if sb1.ttl ≠ 0 ∧ sb1.onTheWire = false ∧ sb1.ttl ≤ sub32 now sb1.tStart then
    (ER_ARDP_TTL_EXPIRED, sb1, [])
  else
    let sb2 := { sb1 with onTheWire := true }
    match sock with
    | ER_OK => (ER_OK, sb2, [Event.emitData h2.seq h2.dlen])
    | s => (s, sb2, [])

/-- ARDP_Disconnect from ArdpProtocol.cc, restricted to a connection already on
the handle (IsConnValid is the caller's burden in this model).  From OPEN: arm
the disconnect timer, move to CLOSE_WAIT and send RST. -/
def ardpDisconnect (now : Nat) (c : ArdpConnRecord) : QStatus × ArdpConnRecord × List Event :=
  if c.STATE = ArdpState.CLOSED ∨ c.STATE = ArdpState.CLOSE_WAIT then
    (ER_ARDP_INVALID_STATE, c, [])
  else if c.STATE = ArdpState.OPEN then
    let c1 := (addTimer c ArdpTimerType.DISCONNECT_TIMER ARDP_TIMWAIT now 0 none).1
    (ER_OK, { c1 with STATE := ArdpState.CLOSE_WAIT },
      [Event.emitCtl (ARDP_FLAG_RST + ARDP_FLAG_VER) c.SND.NXT c.RCV.CUR c.RBUF.window])
  else
    let c1 := (addTimer c ArdpTimerType.DISCONNECT_TIMER 0 now 0 none).1
    (ER_OK, { c1 with STATE := ArdpState.CLOSED }, [])

/-- The fragment count computed by SendData for a payload needing partitioning:
`fcnt = (len + (maxDlen - 1)) / maxDlen`, truncated to the uint16 variable it
is stored in. -/
def fcntOf (len maxDlen : Nat) : Nat := ((len + (maxDlen - 1)) / maxDlen) % U16

/-- The per-fragment loop of SendData.  Loop state: fragment counter `i`,
remaining iterations, the loop-carried retransmit `timeout` (switched to the
urgent value by a WOULDBLOCK and kept for later fragments), the connection,
the accumulated events and the current `status` variable.  `t1` is the TimeNow
value stored into tStart, `t2` the TimeNow value observed inside SendMsgData
and AddTimer. -/
def sendDataLoop (t1 t2 : Nat) (sock : QStatus) (bufPtr ttl som fcnt lastLen : Nat) :
    Nat → Nat → Nat → ArdpConnRecord → List Event → QStatus →
    QStatus × ArdpConnRecord × List Event
  | _, 0, _, c, evs, st => (st, c, evs)
  | i, rem + 1, timeout, c, evs, _ =>
    let index := c.SND.NXT % c.SND.MAX
    let segLen := if i = fcnt - 1 then lastLen else c.SBUF.maxDlen
    let slot := getSnd c index
    let hdr1 := { slot.hdr with
      flags := (ARDP_FLAG_ACK ||| ARDP_FLAG_VER) ||| (if 1 < fcnt then ARDP_FLAG_FRAG else 0),
      som := som, fcnt := fcnt, hlen := c.sndHdrLen / 2, src := c.localPort,
      dst := c.foreignPort, dlen := segLen, seq := c.SND.NXT, ttl := ttl }
    let slot1 := { slot with
      hdr := hdr1, ttl := ttl, tStart := t1, data := bufPtr,
      datalen := segLen, hdrlen := c.sndHdrLen }
    let c1 := setSnd c index slot1
    let r := sendMsgData c1 slot1 t2 sock
    let c2 := setSnd c1 index r.2.1
    let timeout1 := if r.1 = ER_WOULDBLOCK then ARDP_URGENT_RETRANSMIT_TIMEOUT else timeout
    let st1 := if r.1 = ER_WOULDBLOCK then ER_OK else r.1
    if st1 = ER_OK then
      let a := addTimer c2 ArdpTimerType.RETRANSMIT_TIMER timeout1 t2
                 (ARDP_RETRANSMIT_RETRY + 1) (some index)
      let c3 := setSnd a.1 index { r.2.1 with timer := some a.2, inUse := true }
      let c4 := { c3 with
        SBUF := { c3.SBUF with pending := add16 c3.SBUF.pending 1 },
        SND := { c3.SND with NXT := add32 c3.SND.NXT 1 } }
      sendDataLoop t1 t2 sock bufPtr ttl som fcnt lastLen (i + 1) rem timeout1 c4
        (evs ++ r.2.2) st1
    else if st1 ≠ ER_ARDP_TTL_EXPIRED then
      let d := ardpDisconnect t2 c2
      (st1, d.2.1, evs ++ r.2.2 ++ d.2.2)
    else
      sendDataLoop t1 t2 sock bufPtr ttl som fcnt lastLen (i + 1) rem timeout1 c2
        (evs ++ r.2.2) st1

/-- SendData from ArdpProtocol.cc.  Backpressure when the in-flight count
reaches SND.MAX; otherwise one segment for a small payload, or a partition
into `fcntOf len maxDlen` fragments where every fragment but the last carries
maxDlen bytes and the last carries `len % maxDlen` bytes; a fragment count
above SND.MAX is rejected with ER_FAIL and one above the peer window with
ER_ARDP_BACKPRESSURE, both before anything is transmitted. -/
def sendData (t1 t2 : Nat) (sock : QStatus) (c : ArdpConnRecord) (bufPtr len ttl : Nat) :
    QStatus × ArdpConnRecord × List Event :=
  let som := c.SND.NXT
  if sub32 c.SND.NXT c.SND.UNA < c.SND.MAX then
    if len ≤ c.SBUF.maxDlen then
      sendDataLoop t1 t2 sock bufPtr ttl som 1 len 0 1 ARDP_RETRANSMIT_TIMEOUT c [] ER_OK
    else
      let fcnt := fcntOf len c.SBUF.maxDlen
      let lastLen := len % c.SBUF.maxDlen
      if c.SND.MAX < fcnt then (ER_FAIL, c, [])
      else if c.window < fcnt then (ER_ARDP_BACKPRESSURE, c, [])
      else sendDataLoop t1 t2 sock bufPtr ttl som fcnt lastLen 0 fcnt
             ARDP_RETRANSMIT_TIMEOUT c [] ER_OK
  else (ER_ARDP_BACKPRESSURE, c, [])

/-- ARDP_Send from ArdpProtocol.cc.  `valid` models IsConnValid(handle, conn);
`buf` is the user pointer (none models NULL).  The connection/state check
precedes the buffer check, which precedes the window checks. -/
def ardpSend (valid : Bool) (t1 t2 : Nat) (sock : QStatus) (c : ArdpConnRecord)
    (buf : Option Nat) (len ttl : Nat) : QStatus × ArdpConnRecord × List Event :=
  if valid = false ∨ c.STATE ≠ ArdpState.OPEN then (ER_ARDP_INVALID_STATE, c, [])
  else if buf = none ∨ len = 0 then (ER_INVALID_DATA, c, [])
  else if c.window = 0 ∨ c.window ≤ sub32 c.SND.NXT c.SND.UNA then
    (ER_ARDP_BACKPRESSURE, c, [])
  else sendData t1 t2 sock c (buf.getD 0) len ttl

/-- One iteration body plus recursion of the FlushAckedSegments loop over send
slot indices: an in-use slot whose sequence is cumulatively acknowledged
(`SEQ32_LET(seq, ack)`) has its retransmit timer deleted, is released and
decrements pending; the completion callback fires immediately for an
unfragmented slot, and for a fragmented one only when the slot satisfies the
source's last-fragment test `seq == som + fcnt`, with the first fragment's
payload pointer and the reassembled length `maxDlen * (fcnt - 1) + dlen`. -/
def flushLoop (ack : Nat) : Nat → Nat → ArdpConnRecord → List Event →
    ArdpConnRecord × List Event
  | _, 0, c, evs => (c, evs)
  | i, rem + 1, c, evs =>
    let slot := getSnd c i
    if seq32LET slot.hdr.seq ack ∧ slot.inUse then
      let c1 := match slot.timer with
        | some tid => delTimer c tid
        | none => c
      let c2 := setSnd c1 i { slot with inUse := false, timer := none }
      let c3 := setPending c2 (sub16 c2.SBUF.pending 1)
      if slot.hdr.flags &&& ARDP_FLAG_FRAG ≠ 0 then
        if slot.hdr.seq ≠ add32 slot.hdr.som slot.hdr.fcnt then
          flushLoop ack (i + 1) rem c3 evs
        else
          let index := slot.hdr.som % c3.SND.MAX
          let len := c3.SBUF.maxDlen * (slot.hdr.fcnt - 1) + slot.hdr.dlen
          flushLoop ack (i + 1) rem c3
            (evs ++ [Event.sendCbEv (getSnd c3 index).data len ER_OK])
      else
        flushLoop ack (i + 1) rem c3
          (evs ++ [Event.sendCbEv slot.data slot.datalen ER_OK])
    else
      flushLoop ack (i + 1) rem c evs

/-- FlushAckedSegments from ArdpProtocol.cc: run flushLoop over all SND.MAX
send slots. -/
def flushAckedSegments (c : ArdpConnRecord) (ack : Nat) : ArdpConnRecord × List Event :=
  flushLoop ack 0 c.SND.MAX c []

/-- The message-abandonment loop of RetransmitTimerHandler (the retry-exhausted
branch, FRAG case).  Per iteration, following the source statement for
statement: read the slot's header (its dlen is what the final iteration leaves
for the length computation); zero the retry of the slot's timer if it has one;
decrement pending; clear inUse; decrement pending a second time (the source
decrements `conn->SBUF.pending` twice); step the index forward modulo
RBUF.MAX (the source uses RBUF.MAX, not SND.MAX, as the ring modulus); and if
the slot at the new index has a timer, delete the FIRING timer record
(`DeleteTimer(timer)` in the source deletes the handler's own timer, not the
slot's) and null the new slot's timer pointer. -/
def abandonLoop (firingTid : Nat) : Nat → Nat → Nat → ArdpConnRecord →
    ArdpConnRecord × Nat
  | _, 0, lastDlen, c => (c, lastDlen)
  | idx, rem + 1, _, c =>
    let slot := getSnd c idx
    let dl := slot.hdr.dlen
    let c1 := match slot.timer with
      | some tid => setTimerRetry c tid 0
      | none => c
    let c2 := setPending c1 (sub16 c1.SBUF.pending 1)
    let c3 := setSnd c2 idx { (getSnd c2 idx) with inUse := false }
    let c4 := setPending c3 (sub16 c3.SBUF.pending 1)
    let idx2 := (idx + 1) % c4.RBUF.MAX
    let c5 :=
      if (getSnd c4 idx2).timer ≠ none then
        setSnd (delTimer c4 firingTid) idx2 { (getSnd c4 idx2) with timer := none }
      else c4
    abandonLoop firingTid idx2 rem dl c5

/-- RetransmitTimerHandler from ArdpProtocol.cc for the timer attached to send
slot `slotIdx`.  With retry above 1 the slot is retransmitted through
SendMsgData and the timer's delta adjusted by the socket outcome and its retry
decremented.  With retry at 1 the message is abandoned: the firing timer's
retry is zeroed and the slot's timer pointer cleared; for a fragmented message
the abandonLoop above walks the `fcnt` slots starting at `som % RBUF.MAX` and
the single failure callback carries the first visited slot's payload pointer
and the length `maxDlen * (fcnt - 1)` plus the dlen of the last visited
header; an unfragmented slot reports its own pointer and length. -/
def retransmitTimerHandler (c : ArdpConnRecord) (slotIdx now : Nat) (sock : QStatus) :
    ArdpConnRecord × List Event :=
  let snd0 := getSnd c slotIdx
  match snd0.timer with
  | none => (c, [])
  | some tid =>
    match findTimer c tid with
    | none => (c, [])
    | some tm =>
      if 1 < tm.retry then
        let r := sendMsgData c snd0 now sock
        let c1 := setSnd c slotIdx r.2.1
        let newDelta :=
          if r.1 = ER_WOULDBLOCK then ARDP_URGENT_RETRANSMIT_TIMEOUT
          else if r.1 = ER_OK then ARDP_RETRANSMIT_TIMEOUT
          else tm.delta
        (setTimerDeltaRetry c1 tid newDelta (tm.retry - 1), r.2.2)
      else
        let c1 := setTimerRetry c tid 0
        let c2 := setSnd c1 slotIdx { (getSnd c1 slotIdx) with timer := none }
        let h := snd0.hdr
        if h.flags &&& ARDP_FLAG_FRAG ≠ 0 then
          let idx0 := h.som % c2.RBUF.MAX
          let bufPtr := (getSnd c2 idx0).data
          let r := abandonLoop tid idx0 h.fcnt h.dlen c2
          let len := c2.SBUF.maxDlen * (h.fcnt - 1) + r.2
          (r.1, [Event.sendCbEv bufPtr len ER_FAIL])
        else
          (c2, [Event.sendCbEv snd0.data snd0.datalen ER_FAIL])

/-- uint32 left shift modulo 2^32 (the C `<<` on a uint32 word). -/
def shl32 (x n : Nat) : Nat := (x <<< n) % U32

/-- AddRcvMsk from ArdpProtocol.cc: set the EACK bit for offset `delta` (first
bit is RCV.CUR + 2, MSB-first inside each 32-bit word) and extend the
populated prefix length. -/
def addRcvMskC (c : ArdpConnRecord) (delta : Nat) : ArdpConnRecord :=
  let bin32 := (delta - 1) / 32
  let offset := 32 - (delta - bin32 * 32)
  let w := (c.rcvMsk.mask.getD bin32 0) ||| shl32 1 offset
  let sz1 := if c.rcvMsk.sz < bin32 + 1 then bin32 + 1 else c.rcvMsk.sz
  { c with rcvMsk := { c.rcvMsk with mask := c.rcvMsk.mask.set bin32 w, sz := sz1 } }

/-- The word-propagation loop of UpdateRcvMsk, iterating `i` from skip + 1 up
to the populated prefix length: zero words are skipped; otherwise the bits
shifted out to the left are saved, the word is shifted, the saved bits are
or-ed into the previous word, and the last index with a nonzero shifted word
records the new prefix length `i - skip`. -/
def updMskLoop (lshift rshift skip : Nat) : Nat → Nat → List Nat → Nat → List Nat × Nat
  | _, 0, mask, newSz => (mask, newSz)
  | i, rem + 1, mask, newSz =>
    let mi := mask.getD i 0
    if mi = 0 then updMskLoop lshift rshift skip (i + 1) rem mask newSz
    else
      let saveBits := mi >>> rshift
      let mask1 := mask.set i (shl32 mi lshift)
      let mask2 := mask1.set (i - 1) ((mask1.getD (i - 1) 0) ||| saveBits)
      let newSz1 := if 0 < mask2.getD i 0 then i - skip else newSz
      updMskLoop lshift rshift skip (i + 1) rem mask2 newSz1

/-- UpdateRcvMsk from ArdpProtocol.cc: shift the EACK bitmask left by `delta`
bit positions after `delta` segments were consumed in order.  When delta is a
multiple of 32 the computed shift count is 32, which is undefined behaviour on
a C uint32; the model takes the mathematical value (the word becomes 0). -/
def updateRcvMskC (c : ArdpConnRecord) (delta : Nat) : ArdpConnRecord :=
  let skip := delta / 32
  let lshift := 32 - delta % 32
  let rshift := 32 - lshift
  let m0 := shl32 (c.rcvMsk.mask.getD skip 0) lshift
  let mask0 := c.rcvMsk.mask.set 0 m0
  let newSz0 := if 0 < m0 then 1 else 0
  let r := updMskLoop lshift rshift skip (skip + 1) (c.rcvMsk.sz - (skip + 1)) mask0 newSz0
  { c with rcvMsk := { c.rcvMsk with mask := r.1, sz := r.2 } }

/-- Mark `n` receive slots as delivered, starting at `idx` and following the
ring links (the marking loop of the ordered-delivery fragment branch; note it
starts wherever the validation walk left the `fragment` pointer). -/
def markDelivered : ArdpConnRecord → Nat → Nat → ArdpConnRecord
  | c, _, 0 => c
  | c, idx, n + 1 =>
    markDelivered (setRcv c idx { (getRcv c idx) with isDelivered := true })
      ((idx + 1) % c.RCV.MAX) n

/-- The parsed quantities of an inbound data segment (struct ArdpSeg restricted
to the fields AddRcvBuffer reads); `payload` models the bytes copied out of
the datagram after the header. -/
structure ArdpSeg where
  SEQ : Nat
  SOM : Nat
  FCNT : Nat
  DLEN : Nat
  payload : List Nat
  deriving DecidableEq, Repr

/-- The ordered-delivery do-while walk of AddRcvBuffer.  Per iteration: RCV.CUR
advances to the current slot's sequence; a slot of a fragmented message is
acted on only when it is the last fragment (`seq == som + fcnt - 1`), in which
case the message starting at `seg->SOM % RCV.MAX` is offered to the receive
callback once (the fragment-chain validation loop of the source performs
assertions only), a refusal arming a RECV timer on the current slot with the
start fragment as context and stopping delivery, an acceptance marking `fcnt`
slots starting where the validation walk stopped (fcnt slots past the start
fragment -- as in the source); an unfragmented slot is offered directly when
`deliver` holds.  The walk then steps to the ring successor and continues
while its sequence equals seg.SEQ plus the step count.  `fuel` bounds the
recursion; RCV.MAX + 1 steps always reach a slot whose sequence breaks the
chain because the walk's start slot holds seg.SEQ itself. -/
def walk (recvCb : Nat → Bool) (now segSEQ segSOM : Nat) :
    Nat → Nat → Nat → Bool → ArdpConnRecord → List Event →
    ArdpConnRecord × Nat × List Event
  | 0, _, delta, _, c, evs => (c, delta, evs)
  | fuel + 1, idx, delta, deliver, c, evs =>
    let current := getRcv c idx
    let c0 := { c with RCV := { c.RCV with CUR := current.seq } }
    let step : ArdpConnRecord × Bool × List Event :=
      if 1 < current.fcnt then
        if current.seq = add32 current.som (current.fcnt - 1) then
          let idxSom := segSOM % c0.RCV.MAX
          if recvCb (getRcv c0 idxSom).seq = false then
            let a := addTimer c0 ArdpTimerType.RECV_TIMER ARDP_RECV_TIMEOUT now
                       ARDP_RECV_RETRY (some idxSom)
            (setRcv a.1 idx { (getRcv a.1 idx) with timer := some a.2 },
             false, evs ++ [Event.recvCbEv (getRcv c0 idxSom).seq false])
          else
            (markDelivered c0 ((idxSom + current.fcnt) % c0.RCV.MAX) current.fcnt,
             true, evs ++ [Event.recvCbEv (getRcv c0 idxSom).seq true])
        else (c0, deliver, evs)
      else if deliver then
        if recvCb current.seq = false then
          let a := addTimer c0 ArdpTimerType.RECV_TIMER ARDP_RECV_TIMEOUT now
                     ARDP_RECV_RETRY (some idx)
          (setRcv a.1 idx { (getRcv a.1 idx) with timer := some a.2 },
           false, evs ++ [Event.recvCbEv current.seq false])
        else
          (setRcv c0 idx { (getRcv c0 idx) with isDelivered := true },
           deliver, evs ++ [Event.recvCbEv current.seq true])
      else (c0, deliver, evs)
    let c1 := step.1
    let idx2 := (idx + 1) % c1.RCV.MAX
    let delta2 := delta + 1
    if (getRcv c1 idx2).seq = add32 segSEQ delta2 then
      walk recvCb now segSEQ segSOM fuel idx2 delta2 step.2.1 c1 step.2.2
    else (c1, delta2, step.2.2)

/-- AddRcvBuffer from ArdpProtocol.cc.  Reject when the window is full unless
the segment fills a gap below RBUF.last, or when DLEN exceeds the buffer
size (the header-length sanity check and the slot-overwrite check perform
assertions only).  Otherwise extend RBUF.last if needed, store the payload in
slot `SEQ % RCV.MAX`, run the ordered-delivery walk (shifting the EACK mask by
the consumed count) or set the out-of-order EACK bit, and recompute
`RBUF.window = RCV.MAX - ((RBUF.last - RBUF.first) + 1)` in uint32
arithmetic. -/
def addRcvBuffer (recvCb : Nat → Bool) (now : Nat) (c : ArdpConnRecord) (seg : ArdpSeg)
    (ordered : Bool) : QStatus × ArdpConnRecord × List Event :=
  let index := seg.SEQ % c.RCV.MAX
  if c.RBUF.window = 0 ∧ seq32LT seg.SEQ c.RBUF.last = false then (ER_FAIL, c, [])
  else if c.RBUF.MAX < seg.DLEN then (ER_FAIL, c, [])
  else
    let c0 := if seq32LT c.RBUF.last seg.SEQ then
                { c with RBUF := { c.RBUF with last := seg.SEQ } }
              else c
    let cur0 := getRcv c0 index
    let c1 := setRcv c0 index { cur0 with
      seq := seg.SEQ, datalen := seg.DLEN, inUse := true, data := seg.payload,
      fcnt := seg.FCNT, som := seg.SOM }
    let c2evs :=
      if ordered then
        let prevIdx := (sub32 index 1) % c1.RCV.MAX
        let deliver := (getRcv c1 prevIdx).isDelivered
        let w := walk recvCb now seg.SEQ seg.SOM (c1.RCV.MAX + 1) index 0 deliver c1 []
        let c2 := if 1 < w.2.1 then updateRcvMskC w.1 (w.2.1 + 1) else w.1
        (c2, w.2.2)
      else
        (addRcvMskC c1 (sub32 seg.SEQ (add32 c.RCV.CUR 1)), ([] : List Event))
    let c3 := c2evs.1
    let c4 := { c3 with RBUF := { c3.RBUF with
      window := sub32 c3.RCV.MAX (add32 (sub32 c3.RBUF.last c3.RBUF.first) 1) } }
    (ER_OK, c4, c2evs.2)

/-- The release loop of UpdateRcvBuffers: for each of the `fcnt` slots starting
at the consumed buffer and following the ring links, clear inUse and
isDelivered and advance RBUF.first (the in-use/delivered checks of the source
perform assertions only). -/
def releaseLoop : Nat → Nat → ArdpConnRecord → ArdpConnRecord
  | _, 0, c => c
  | idx, n + 1, c =>
    let slot := getRcv c idx
    let c1 := setRcv c idx { slot with inUse := false, isDelivered := false }
    let c2 := { c1 with RBUF := { c1.RBUF with first := add32 c1.RBUF.first 1 } }
    releaseLoop ((idx + 1) % c2.RCV.MAX) n c2

/-- The outcome of UpdateRcvBuffers.  `fcntCheckFails` records whether the
source's fragment-count assertion `assert(consumed->fcnt < 1)` fires (it is
true exactly when fcnt is at least 1); execution continues past it as in an
NDEBUG build. -/
structure UpdOut where
  status : QStatus
  conn : ArdpConnRecord
  fcntCheckFails : Bool
  deriving DecidableEq, Repr

/-- UpdateRcvBuffers from ArdpProtocol.cc, releasing the consumed buffer that
lives at ring index `k` (the C argument is the slot's address; the
address-vs-sequence consistency check `&rcv[consumed->seq % RCV.MAX] ==
consumed` becomes `consumed.seq % RCV.MAX = k` and fails with ER_FAIL).  After
an error log for `fcnt < 1`, the source asserts `consumed->fcnt < 1` -- the
recorded inverted check -- then releases the `fcnt` slots, advances RBUF.first
and recomputes the window: RCV.MAX with last snapped to first when the ring
emptied (last below first), else `RCV.MAX - ((last - first) + 1)`. -/
def updateRcvBuffers (c : ArdpConnRecord) (k : Nat) : UpdOut :=
  let consumed := getRcv c k
  let count := consumed.fcnt
  let index := consumed.seq % c.RCV.MAX
  if index ≠ k then { status := ER_FAIL, conn := c, fcntCheckFails := false }
  else
    let fails := decide (1 ≤ count)
    let c1 := releaseLoop k count c
    if seq32LT c1.RBUF.last c1.RBUF.first then
      { status := ER_OK,
        conn := { c1 with RBUF := { c1.RBUF with window := c1.RCV.MAX, last := c1.RBUF.first } },
        fcntCheckFails := fails }
    else
      { status := ER_OK,
        conn := { c1 with RBUF := { c1.RBUF with
          window := sub32 c1.RCV.MAX (add32 (sub32 c1.RBUF.last c1.RBUF.first) 1) } },
        fcntCheckFails := fails }

/-- The iteration of CheckConnTimers over one connection's timer list.  The
handler function pointer is modelled by `hrun`, mapping the timer's type and
record to either the record as the handler leaves it (handlers own all retry
updates; the pass itself never decrements retry) or none when the handler
destroyed the connection, in which case the iteration breaks.  A fired timer
whose retry is then 0 is deleted -- and if the whole list became empty the
iteration breaks before the minimum update, otherwise the deleted record's
deadline still participates in the minimum (the source reads timer->when after
DeleteTimer freed the record; the model takes the value the record last held).
A fired timer with positive retry is rescheduled at now + delta.  Every
surviving visit lowers the accumulator `next` to the observed deadline.
`survived` records whether any earlier timer remains in the list. -/
def checkGo (hrun : ArdpTimerType → ArdpTimer → Option ArdpTimer) (now : Nat) :
    List ArdpTimer → Nat → Bool → List ArdpTimer × Nat × Bool
  | [], next, _ => ([], next, true)
  | t :: rest, next, survived =>
    if t.when ≤ now then
      match hrun t.type t with
      | none => (t :: rest, next, false)
      | some t2 =>
        if t2.retry = 0 then
          if survived = false ∧ rest = [] then ([], next, true)
          else
            let next2 := if t2.when < next then t2.when else next
            checkGo hrun now rest next2 survived
        else
          let t3 := { t2 with when := now + t2.delta }
          let next2 := if t3.when < next then t3.when else next
          let r := checkGo hrun now rest next2 true
          (t3 :: r.1, r.2)
    else
      let next2 := if t.when < next then t.when else next
      let r := checkGo hrun now rest next2 true
      (t :: r.1, r.2)

/-- CheckConnTimers from ArdpProtocol.cc.  An empty timer list returns the
incoming accumulator `next` unchanged (an absolute deadline or the sentinel);
otherwise the timers are processed by checkGo and the resulting accumulator is
returned as `next - now` unless it is the no-timeout sentinel.  The Bool
reports whether the connection survived its handlers. -/
def checkConnTimers (hrun : ArdpTimerType → ArdpTimer → Option ArdpTimer)
    (now : Nat) (timers : List ArdpTimer) (next : Nat) : List ArdpTimer × Nat × Bool :=
  if timers.isEmpty then (timers, next, true)
  else
    let r := checkGo hrun now timers next false
    (r.1, (if r.2.1 ≠ ardpNoTimeout then sub32 r.2.1 now else ardpNoTimeout), r.2.2)

/-- The connection iteration of CheckTimers: each connection's CheckConnTimers
receives the running accumulator -- the RELATIVE value returned by the
previous connection's pass -- as its absolute bound, exactly as the source
chains `nextTime = CheckConnTimers(handle, conn, nextTime, now)`.  A
connection destroyed by its handlers is dropped from the list. -/
def checkTimersGo (hrun : ArdpTimerType → ArdpTimer → Option ArdpTimer) (now : Nat) :
    List ArdpConnRecord → Nat → List ArdpConnRecord × Nat
  | [], acc => ([], acc)
  | c :: rest, acc =>
    let r := checkConnTimers hrun now c.timers acc
    let tail := checkTimersGo hrun now rest r.2.1
    if r.2.2 then ({ c with timers := r.1 } :: tail.1, tail.2) else tail

/-- CheckTimers from ArdpProtocol.cc: the no-timeout sentinel over an empty
connection list, else the chained per-connection passes. -/
def checkTimers (hrun : ArdpTimerType → ArdpTimer → Option ArdpTimer) (now : Nat)
    (conns : List ArdpConnRecord) : List ArdpConnRecord × Nat :=
  checkTimersGo hrun now conns ardpNoTimeout

/-- One outcome of a qcc::RecvFrom call on the nonblocking socket: WouldBlock,
another failure, or a datagram whose first four bytes demultiplex to the
`dst` and `src` ARDP ports (ProtocolDemux); `validSyn` tells whether the
payload parses as the exact SYN|VER segment the Accept path requires. -/
inductive RecvOutcome where
  | wouldBlock
  | failed (s : QStatus)
  | dgram (nbytes dst src : Nat) (validSyn : Bool)
  deriving DecidableEq, Repr

/-- The fields of struct ARDP_HANDLE that ARDP_Run consults. -/
structure ArdpHandleM where
  accepting : Bool
  hasAcceptCb : Bool
  conns : List ArdpConnRecord
  deriving DecidableEq, Repr

/-- The observable outcome of one ARDP_Run call: the returned status, the
next-timeout value written through `ms`, the connection list, the socket
outcomes not yet consumed, the (dst, src) pairs of datagrams handed to the
state machine, and the number of RSTs sent to unsolicited senders. -/
structure RunOut where
  status : QStatus
  ms : Nat
  conns : List ArdpConnRecord
  remaining : List RecvOutcome
  dispatched : List (Nat × Nat)
  rsts : Nat
  deriving DecidableEq, Repr

/-- Index of the connection matching (localPort, foreignPort), as FindConn. -/
def findConnIdx (cs : List ArdpConnRecord) (l f : Nat) : Option Nat :=
  cs.findIdx? (fun c => c.localPort = l ∧ c.foreignPort = f)

/-- Refresh lastSeen of the connection at index `i`. -/
def touchConn (cs : List ArdpConnRecord) (i now : Nat) : List ArdpConnRecord :=
  match cs.get? i with
  | none => cs
  | some c => cs.set i { c with lastSeen := now }

/-- The default-initialized connection record a passive open allocates
(NewConnRecord + InitConnRecord, with the randomized ephemeral port and
clock-derived fields left at the model's zero). -/
def connZero : ArdpConnRecord :=
  { STATE := ArdpState.CLOSED, passive := false,
    SND := { NXT := 0, UNA := 0, MAX := 0, ISS := 0 },
    SBUF := { MAX := 0, snd := [], maxDlen := 0, pending := 0 },
    RCV := { CUR := 0, MAX := 0, IRS := 0 },
    RBUF := { MAX := 0, rcv := [], first := 0, last := 0, window := 0 },
    localPort := 0, foreignPort := 0, window := 0, minSendWindow := 0,
    sndHdrLen := 0, rcvHdrLen := 0,
    rcvMsk := { mask := [], sz := 0, fixedSz := 0 },
    remoteMskSz := 0, lastSeen := 0, timers := [], nextTid := 0 }

/-- The receive loop of ARDP_Run.  Each iteration takes the next socket
outcome: WouldBlock returns ER_OK at once; any other failure propagates; a
datagram of valid size is demultiplexed -- port 0 runs the Accept path (or
answers with RST, whose SendTo outcome is `rstStatus`) and RETURNS, a match
against an open or half-open connection refreshes lastSeen, hands the
datagram to Receive and RETURNS its ER_OK; anything unmatched or of invalid
size is dropped silently and the loop continues.  Per the source, at most one
datagram is ever dispatched per call; the effect of the dispatched segment on
the connection state (ArdpMachine) is outside the run loop's accounting,
which records the dispatch instead.  An exhausted outcome list models a
socket that stays readable with nothing to deliver and behaves as
WouldBlock. -/
def runLoop (accepting hasAcceptCb : Bool) (now : Nat) (rstStatus : QStatus) :
    List ArdpConnRecord → List RecvOutcome →
    QStatus × List ArdpConnRecord × List RecvOutcome × List (Nat × Nat) × Nat
  | conns, [] => (ER_OK, conns, [], [], 0)
  | conns, o :: rest =>
    match o with
    | RecvOutcome.wouldBlock => (ER_OK, conns, rest, [], 0)
    | RecvOutcome.failed s => (s, conns, rest, [], 0)
    | RecvOutcome.dgram n dst src ok =>
      if 0 < n ∧ n < 65536 then
        if dst = 0 then
          if accepting ∧ hasAcceptCb then
            ((if ok then ER_OK else ER_FAIL),
             conns ++ [{ connZero with foreignPort := src, passive := true }],
             rest, [(dst, src)], 0)
          else (rstStatus, conns, rest, [], 1)
        else
          match findConnIdx conns dst src with
          | some i => (ER_OK, touchConn conns i now, rest, [(dst, src)], 0)
          | none =>
            match findConnIdx conns dst 0 with
            | some i => (ER_OK, touchConn conns i now, rest, [(dst, src)], 0)
            | none => runLoop accepting hasAcceptCb now rstStatus conns rest
      else runLoop accepting hasAcceptCb now rstStatus conns rest

/-- ARDP_Run from ArdpProtocol.cc: write the CheckTimers result through `ms`
first; then, with the socket ready, run the receive loop; with the socket not
ready the while loop never runs and the function falls through to its final
`return ER_FAIL`. -/
def ardpRun (hrun : ArdpTimerType → ArdpTimer → Option ArdpTimer) (h : ArdpHandleM)
    (now : Nat) (rstStatus : QStatus) (socketReady : Bool)
    (queue : List RecvOutcome) : RunOut :=
  let ct := checkTimers hrun now h.conns
  if socketReady then
    let r := runLoop h.accepting h.hasAcceptCb now rstStatus ct.1 queue
    { status := r.1, ms := ct.2, conns := r.2.1, remaining := r.2.2.1,
      dispatched := r.2.2.2.1, rsts := r.2.2.2.2 }
  else
    { status := ER_FAIL, ms := ct.2, conns := ct.1, remaining := queue,
      dispatched := [], rsts := 0 }

/-- The projection of a connection onto the receive-frame quantities the window
invariant is about: (RBUF.first, RBUF.last, RCV.MAX). -/
def rcvFrame (c : ArdpConnRecord) : Nat × Nat × Nat := (c.RBUF.first, c.RBUF.last, c.RCV.MAX)

/-- Header of fragment `seqN` of a fragmented message (flags ACK|VER|FRAG = 98). -/
def fragHdr (seqN somN fcntN dlenN : Nat) : ArdpHdr :=
  { hdrZero with flags := 98, seq := seqN, som := somN, fcnt := fcntN, dlen := dlenN }

/-- A send slot holding an in-flight fragment. -/
def fragSlot (seqN somN fcntN dlenN dataPtr : Nat) (tm : Option Nat) : ArdpSndBuf :=
  { sndBufZero with
    hdr := fragHdr seqN somN fcntN dlenN, data := dataPtr,
    datalen := dlenN, inUse := true, onTheWire := true, timer := tm }

/-- An OPEN connection with SND.MAX = RBUF.MAX = 4 and maxDlen = 10 holding a
two-fragment message (som 0) in slots 0 and 1, pending = 2; slot 0's
retransmit timer (tid 10) is down to its last retry, slot 1's (tid 11) is
fresh. -/
def connC1 : ArdpConnRecord :=
  { connZero with
    STATE := ArdpState.OPEN,
    SND := { NXT := 2, UNA := 0, MAX := 4, ISS := 0 },
    SBUF := {
      MAX := 100,
      snd := [fragSlot 0 0 2 10 100 (some 10), fragSlot 1 0 2 7 100 (some 11),
              sndBufZero, sndBufZero],
      maxDlen := 10, pending := 2 },
    RBUF := { MAX := 4, rcv := [], first := 0, last := 0, window := 0 },
    RCV := { CUR := 0, MAX := 4, IRS := 0 },
    window := 4,
    rcvMsk := { mask := [0], sz := 0, fixedSz := 1 },
    timers := [
      { tid := 10, type := ArdpTimerType.RETRANSMIT_TIMER, delta := 500, when := 500,
        retry := 1, slot := some 0 },
      { tid := 11, type := ArdpTimerType.RETRANSMIT_TIMER, delta := 500, when := 500,
        retry := 5, slot := some 1 } ],
    nextTid := 12 }

/-- An OPEN connection with SND.MAX = 4, maxDlen = 10 holding a two-fragment
message with som 1 in slots 1 (seq 1, dlen 10) and 2 (seq 2, dlen 7),
pending = 2, no retransmit timers armed. -/
def connC2 : ArdpConnRecord :=
  { connZero with
    STATE := ArdpState.OPEN,
    SND := { NXT := 3, UNA := 1, MAX := 4, ISS := 0 },
    SBUF := {
      MAX := 100,
      snd := [sndBufZero, fragSlot 1 1 2 10 200 none, fragSlot 2 1 2 7 200 none,
              sndBufZero],
      maxDlen := 10, pending := 2 },
    window := 4 }

/-- A freshly opened connection: SND.MAX = 4, peer window 4, maxDlen = 10,
empty send ring, NXT = UNA = 0. -/
def connC3 : ArdpConnRecord :=
  { connZero with
    STATE := ArdpState.OPEN,
    SND := { NXT := 0, UNA := 0, MAX := 4, ISS := 0 },
    SBUF := {
      MAX := 100, snd := [sndBufZero, sndBufZero, sndBufZero, sndBufZero],
      maxDlen := 10, pending := 0 },
    RBUF := { MAX := 100, rcv := [], first := 0, last := 0, window := 0 },
    rcvMsk := { mask := [0], sz := 0, fixedSz := 1 },
    window := 4 }

/-- An OPEN connection with SND.MAX = 1 and peer window 1 (maxDlen = 10), so a
two-fragment send exceeds both the window and SND.MAX. -/
def connC5 : ArdpConnRecord :=
  { connZero with
    STATE := ArdpState.OPEN,
    SND := { NXT := 0, UNA := 0, MAX := 1, ISS := 0 },
    SBUF := { MAX := 100, snd := [sndBufZero], maxDlen := 10, pending := 0 },
    rcvMsk := { mask := [0], sz := 0, fixedSz := 1 },
    window := 1 }

/-- connC3 with the peer advertising a zero window. -/
def connC5w : ArdpConnRecord := { connC3 with window := 0 }

/-- A connection with RCV.MAX = 4 whose receive ring holds exactly the
delivered one-fragment message seq 1 in slot 1 (first = last = 1,
window = 3). -/
def connC9 : ArdpConnRecord :=
  { connZero with
    STATE := ArdpState.OPEN,
    RCV := { CUR := 1, MAX := 4, IRS := 0 },
    RBUF := {
      MAX := 100,
      rcv := [rcvBufZero,
              { rcvBufZero with
                seq := 1, fcnt := 1, datalen := 5, inUse := true,
                isDelivered := true },
              rcvBufZero, rcvBufZero],
      first := 1, last := 1, window := 3 } }

/-- A timer-handler model that leaves every fired timer untouched and never
destroys the connection. -/
def hrunKeep : ArdpTimerType → ArdpTimer → Option ArdpTimer := fun _ t => some t

/-- A connection whose only timer has deadline 1000. -/
def connT1 : ArdpConnRecord :=
  { connZero with timers := [
      { tid := 0, type := ArdpTimerType.WINDOW_CHECK_TIMER, delta := 5000, when := 1000,
        retry := ARDP_RETRY_ALWAYS, slot := none } ] }

/-- A connection whose only timer has deadline 2000. -/
def connT2 : ArdpConnRecord :=
  { connZero with timers := [
      { tid := 0, type := ArdpTimerType.WINDOW_CHECK_TIMER, delta := 5000, when := 2000,
        retry := ARDP_RETRY_ALWAYS, slot := none } ] }

/-- A connection on ports (5, 7) with a single future timer. -/
def connR : ArdpConnRecord := { connT1 with localPort := 5, foreignPort := 7 }

/-- A timer already due at time 100, with retries left. -/
def timerT3 : ArdpTimer :=
  { tid := 3, type := ArdpTimerType.WINDOW_CHECK_TIMER, delta := 200, when := 50,
    retry := 5, slot := none }

/-- A connection whose only timer is timerT3. -/
def connT3 : ArdpConnRecord := { connZero with timers := [timerT3] }

/-- A handle owning just connR, not accepting. -/
def hC6 : ArdpHandleM := { accepting := false, hasAcceptCb := false, conns := [connR] }

/-- A two-datagram socket queue followed by WouldBlock, both datagrams
addressed to connR. -/
def queueC6 : List RecvOutcome :=
  [RecvOutcome.dgram 100 5 7 true, RecvOutcome.dgram 100 5 7 true, RecvOutcome.wouldBlock]

/-- The least deadline accumulation of CheckConnTimers: fold the strict-less
update of the accumulator over the timer deadlines. -/
def foldMinWhen (next : Nat) (ts : List ArdpTimer) : Nat :=
  ts.foldl (fun a t => if t.when < a then t.when else a) next

/-- An in-window out-of-order data segment for the c8 witness. -/
def segC8 : ArdpSeg := { SEQ := 2, SOM := 2, FCNT := 1, DLEN := 3, payload := [7, 7, 7] }

/-- The receive-window accounting invariant as the claim states it:
`RBUF.window = RCV.MAX - (RBUF.last - RBUF.first + 1)` when the ring is
non-empty (first at most last), and window = RCV.MAX with last = first when it
is empty.  Stated additively to stay in Nat. -/
def windowInv (c : ArdpConnRecord) : Prop :=
  (c.RBUF.last = c.RBUF.first ∧ c.RBUF.window = c.RCV.MAX) ∨
  (c.RBUF.first ≤ c.RBUF.last ∧
    c.RBUF.window + (c.RBUF.last - c.RBUF.first + 1) = c.RCV.MAX)

/-- C1: evaluation of the code at the failing input.  On connC1 (OPEN, SND.MAX
= 4, a two-fragment message in slots 0 and 1, pending = 2), expiry of slot 0's
retransmit timer with retry 1 abandons the message; the claim requires pending
to be decremented exactly once per in-use fragment slot, leaving 0 with
0 ≤ pending ≤ SND.MAX, but the handler decrements pending twice per slot, so
the uint16 counter wraps to 65534, above SND.MAX and different from the
claimed value. -/
theorem c1_retransmit_abandon_breaks_pending_invariant :
    (retransmitTimerHandler connC1 0 600 ER_OK).1.SBUF.pending = 65534 ∧
    (retransmitTimerHandler connC1 0 600 ER_OK).2 = [Event.sendCbEv 100 17 ER_FAIL] ∧
    connC1.SBUF.pending = 2 ∧ connC1.SND.MAX = 4 ∧
    ¬ ((retransmitTimerHandler connC1 0 600 ER_OK).1.SBUF.pending ≤ connC1.SND.MAX) ∧
    (retransmitTimerHandler connC1 0 600 ER_OK).1.SBUF.pending ≠ connC1.SBUF.pending - 2 := by
  decide

/-- C2: evaluation of the code at the failing input.  On connC2 a two-fragment
message occupies slots 1 (seq 1 = som) and 2 (seq 2 = som + fcnt - 1, the last
fragment); a cumulative ACK of 2 flushes both slots (pending drops to 0), yet
no SendCb is issued at all: the source's last-fragment test compares the
sequence against som + fcnt = 3, which no fragment of the message carries, so
the claimed single callback with the first fragment's pointer and reassembled
length 17 never fires. -/
theorem c2_flush_fragmented_fires_no_sendcb :
    (flushAckedSegments connC2 2).2 = [] ∧
    (flushAckedSegments connC2 2).1.SBUF.pending = 0 ∧
    (getSnd (flushAckedSegments connC2 2).1 1).inUse = false ∧
    (getSnd (flushAckedSegments connC2 2).1 2).inUse = false ∧
    (getSnd connC2 2).hdr.seq = add32 (getSnd connC2 2).hdr.som ((getSnd connC2 2).hdr.fcnt - 1) ∧
    List.length (flushAckedSegments connC2 2).2 ≠ 1 := by
  decide

/-- C3: evaluation of the code at the failing input.  Sending 20 bytes on
connC3 (maxDlen = 10) partitions into fcnt = 2 fragments, but because the
source computes the last fragment's length as len mod maxDlen, the second
fragment carries 0 bytes (its header dlen and the emitted datagram are both
empty) instead of the positive 20 - (2 - 1) * 10 = 10 bytes the claim
requires. -/
theorem c3_exact_multiple_last_fragment_empty :
    fcntOf 20 connC3.SBUF.maxDlen = 2 ∧
    (ardpSend true 0 0 ER_OK connC3 (some 300) 20 0).1 = ER_OK ∧
    (getSnd (ardpSend true 0 0 ER_OK connC3 (some 300) 20 0).2.1 1).datalen = 0 ∧
    (ardpSend true 0 0 ER_OK connC3 (some 300) 20 0).2.2 =
      [Event.emitData 0 10, Event.emitData 1 0] ∧
    20 - (2 - 1) * connC3.SBUF.maxDlen = 10 ∧ (0 : Nat) ≠ 10 := by
  decide

/-- C9: evaluation of the code at the failing input.  Releasing the in-order,
delivered one-fragment buffer seq 1 (fcnt = 1) of connC9 proceeds exactly as
the claim describes in a release build -- status ok, the slot's inUse and
isDelivered cleared, RBUF.first advanced by fcnt -- but the source's
fragment-count validity check is the inverted assertion
`assert(consumed->fcnt < 1)`, which fires (fcntCheckFails) on this valid
fcnt = 1 input, the opposite of the claimed "only fcnt == 0 is invalid". -/
theorem c9_fcnt_check_inverted :
    (getRcv connC9 1).fcnt = 1 ∧
    (updateRcvBuffers connC9 1).fcntCheckFails = true ∧
    (updateRcvBuffers connC9 1).status = ER_OK ∧
    (updateRcvBuffers connC9 1).conn.RBUF.first = 2 ∧
    (getRcv (updateRcvBuffers connC9 1).conn 1).inUse = false ∧
    (getRcv (updateRcvBuffers connC9 1).conn 1).isDelivered = false := by
  decide

/-- C5 counterexample: on connC5 the peer window is 1 and a 20-byte send
fragments into fcnt = 2 > window, so the claim requires BackPressure; but
fcnt also exceeds SND.MAX = 1 and that check runs first, so the code returns
ER_FAIL -- the claim as stated is false at this input. -/
theorem c5_fcnt_over_max_returns_fail :
    connC5.window < fcntOf 20 connC5.SBUF.maxDlen ∧
    ardpSend true 0 0 ER_OK connC5 (some 300) 20 0 = (ER_FAIL, connC5, []) ∧
    ER_FAIL ≠ ER_ARDP_BACKPRESSURE := by
  decide

/-- C7 counterexample: two connections with single future timers at deadlines
1000 and 2000, checked at now = 100.  The minimum future deadline minus now is
900, but CheckTimers feeds the first connection's relative result 900 into the
second connection's pass as an absolute bound, which subtracts now again and
returns 800 -- the claimed return value is false at this input. -/
theorem c7_checktimers_chaining_not_min :
    (checkTimers hrunKeep 100 [connT1, connT2]).2 = 800 ∧
    (800 : Nat) ≠ 1000 - 100 := by
  decide

/-- C6 counterexample: with two datagrams for connR queued ahead of WouldBlock,
the claim requires run to keep receiving and dispatching until recv_from
reports WouldBlock (consuming the whole queue); the code dispatches the first
datagram and returns immediately, leaving the second datagram and the
WouldBlock outcome unconsumed. -/
theorem c6_run_stops_after_one_dispatch :
    (ardpRun hrunKeep hC6 0 ER_OK true queueC6).dispatched = [(5, 7)] ∧
    (ardpRun hrunKeep hC6 0 ER_OK true queueC6).remaining =
      [RecvOutcome.dgram 100 5 7 true, RecvOutcome.wouldBlock] ∧
    (ardpRun hrunKeep hC6 0 ER_OK true queueC6).remaining ≠ [] := by
  decide

/-- C10: ARDP_Send returns ER_INVALID_DATA for a NULL buffer or zero length
without transmitting or changing state, and this check runs only after the
connection-validity/OPEN check, so an invalid or non-OPEN connection yields
ER_ARDP_INVALID_STATE even for a null or empty buffer. -/
theorem c10_send_null_checks (valid : Bool) (t1 t2 : Nat) (sock : QStatus)
    (c : ArdpConnRecord) (buf : Option Nat) (len ttl : Nat)
    (hb : buf = none ∨ len = 0) :
    (valid = true → c.STATE = ArdpState.OPEN →
      ardpSend valid t1 t2 sock c buf len ttl = (ER_INVALID_DATA, c, [])) ∧
    (valid = false ∨ c.STATE ≠ ArdpState.OPEN →
      ardpSend valid t1 t2 sock c buf len ttl = (ER_ARDP_INVALID_STATE, c, [])) := by
  constructor
  · intro hv hs
    subst hv
    unfold ardpSend
    rw [if_neg (by simp [hs]), if_pos hb]
  · intro hvs
    unfold ardpSend
    rw [if_pos hvs]

/-- C10 witness: the theorem applied at a concrete input (OPEN connC3, a NULL
buffer), discharging its hypothesis there. -/
theorem c10_send_null_checks_witness :
    (((none : Option Nat) = none ∨ (5 : Nat) = 0) ∧
      connC3.STATE = ArdpState.OPEN) ∧
    ardpSend true 0 0 ER_OK connC3 none 5 0 = (ER_INVALID_DATA, connC3, []) :=
  ⟨⟨Or.inl rfl, rfl⟩,
    (c10_send_null_checks true 0 0 ER_OK connC3 none 5 0 (Or.inl rfl)).1 rfl rfl⟩

/-- C5 amended: send returns BackPressure, transmitting nothing and leaving
all connection state unchanged, whenever the unacknowledged count
SND.NXT - SND.UNA has reached SND.MAX, or the peer window is 0, or a
fragmented message's fcnt exceeds the peer window while not exceeding SND.MAX
(a fragment count above SND.MAX fails with ER_FAIL first instead). -/
theorem c5_backpressure_amended (t1 t2 : Nat) (sock : QStatus) (c : ArdpConnRecord)
    (b len ttl : Nat)
    (hst : c.STATE = ArdpState.OPEN)
    (hlen : 0 < len)
    (hcond : c.SND.MAX ≤ sub32 c.SND.NXT c.SND.UNA ∨ c.window = 0 ∨
      (c.SBUF.maxDlen < len ∧ fcntOf len c.SBUF.maxDlen ≤ c.SND.MAX ∧
       c.window < fcntOf len c.SBUF.maxDlen)) :
    ardpSend true t1 t2 sock c (some b) len ttl = (ER_ARDP_BACKPRESSURE, c, []) := by
  unfold ardpSend
  rw [if_neg (by simp [hst])]
  rw [if_neg (by simp only [Option.some_ne_none, false_or]; omega)]
  by_cases h3 : c.window = 0 ∨ c.window ≤ sub32 c.SND.NXT c.SND.UNA
  · rw [if_pos h3]
  · rw [if_neg h3]
    push_neg at h3
    obtain ⟨hw0, hwlt⟩ := h3
    simp only [sendData, Option.getD_some]
    rcases hcond with hc | hc | ⟨hml, hfle, hwf⟩
    · rw [if_neg (by omega)]
    · exact absurd hc hw0
    · by_cases hin : sub32 c.SND.NXT c.SND.UNA < c.SND.MAX
      · rw [if_pos hin, if_neg (by omega), if_neg (by omega), if_pos hwf]
      · rw [if_neg hin]

/-- C5 amended witness: the theorem applied to connC5w (peer window 0),
discharging each hypothesis there. -/
theorem c5_backpressure_amended_witness :
    (connC5w.STATE = ArdpState.OPEN ∧ (0 : Nat) < 5 ∧ connC5w.window = 0) ∧
    ardpSend true 0 0 ER_OK connC5w (some 1) 5 0 = (ER_ARDP_BACKPRESSURE, connC5w, []) :=
  ⟨⟨rfl, by decide, rfl⟩,
   c5_backpressure_amended 0 0 ER_OK connC5w 1 5 0 rfl (by decide) (Or.inr (Or.inl rfl))⟩

theorem getD_set_self {α : Type} (l : List α) (i : Nat) (a d : α) (h : i < l.length) :
    (l.set i a).getD i d = a := by
  induction l generalizing i with
  | nil => simp at h
  | cons x xs ih =>
    cases i with
    | zero => rfl
    | succ n => exact ih n (by simpa using h)

theorem getSnd_setSnd (c : ArdpConnRecord) (i : Nat) (s : ArdpSndBuf)
    (h : i < c.SBUF.snd.length) : getSnd (setSnd c i s) i = s := by
  simp only [getSnd, setSnd]
  exact getD_set_self _ _ _ _ h

@[simp]
theorem setSnd_SND (c : ArdpConnRecord) (i : Nat) (s : ArdpSndBuf) :
    (setSnd c i s).SND = c.SND := rfl

@[simp]
theorem setSnd_pending (c : ArdpConnRecord) (i : Nat) (s : ArdpSndBuf) :
    (setSnd c i s).SBUF.pending = c.SBUF.pending := rfl

@[simp]
theorem setSnd_timers (c : ArdpConnRecord) (i : Nat) (s : ArdpSndBuf) :
    (setSnd c i s).timers = c.timers := rfl

@[simp]
theorem setSnd_snd_length (c : ArdpConnRecord) (i : Nat) (s : ArdpSndBuf) :
    (setSnd c i s).SBUF.snd.length = c.SBUF.snd.length := by
  simp [setSnd]

/-- C4: a nonzero-TTL send whose TTL has already elapsed when SendMsgData first
looks at the segment (tStart was taken at t1, SendMsgData observes t2 with
t2 - t1 at least ttl, the slot never having been on the wire) returns
ER_ARDP_TTL_EXPIRED from SendMsgData, and the operation is atomic in failure:
no datagram or callback event is produced, SND (hence SND.NXT) and
SBUF.pending are unchanged, the timer list is unchanged (no retransmit timer
armed), and the slot is left not in use, without a timer and off the wire, so
no SendCb can ever fire for that buffer. -/
theorem c4_ttl_expired_atomic (t1 t2 : Nat) (sock : QStatus) (c : ArdpConnRecord)
    (bufPtr len ttl : Nat)
    (hwin : sub32 c.SND.NXT c.SND.UNA < c.SND.MAX)
    (hlen : len ≤ c.SBUF.maxDlen)
    (httl : ttl ≠ 0)
    (helapsed : ttl ≤ sub32 t2 t1)
    (hot : (getSnd c (c.SND.NXT % c.SND.MAX)).onTheWire = false)
    (hiu : (getSnd c (c.SND.NXT % c.SND.MAX)).inUse = false)
    (htm : (getSnd c (c.SND.NXT % c.SND.MAX)).timer = none)
    (hlt : c.SND.NXT % c.SND.MAX < c.SBUF.snd.length) :
    (sendData t1 t2 sock c bufPtr len ttl).1 = ER_ARDP_TTL_EXPIRED ∧
    (sendData t1 t2 sock c bufPtr len ttl).2.2 = [] ∧
    (sendData t1 t2 sock c bufPtr len ttl).2.1.SND = c.SND ∧
    (sendData t1 t2 sock c bufPtr len ttl).2.1.SBUF.pending = c.SBUF.pending ∧
    (sendData t1 t2 sock c bufPtr len ttl).2.1.timers = c.timers ∧
    (getSnd (sendData t1 t2 sock c bufPtr len ttl).2.1 (c.SND.NXT % c.SND.MAX)).inUse = false ∧
    (getSnd (sendData t1 t2 sock c bufPtr len ttl).2.1 (c.SND.NXT % c.SND.MAX)).timer = none ∧
    (getSnd (sendData t1 t2 sock c bufPtr len ttl).2.1 (c.SND.NXT % c.SND.MAX)).onTheWire
      = false := by
  have hstep : sendData t1 t2 sock c bufPtr len ttl =
      sendDataLoop t1 t2 sock bufPtr ttl c.SND.NXT 1 len 0 1 ARDP_RETRANSMIT_TIMEOUT c []
        ER_OK := by
    unfold sendData
    rw [if_pos hwin, if_pos hlen]
  rw [hstep]
  simp [sendDataLoop, sendMsgData, httl, hot, helapsed, hiu, htm, hlt, getSnd_setSnd]

/-- C4 witness: the theorem applied to connC3 with ttl 20 and 50 ms elapsed
before the first transmission, discharging each hypothesis there. -/
theorem c4_ttl_expired_atomic_witness :
    (sub32 connC3.SND.NXT connC3.SND.UNA < connC3.SND.MAX ∧
      (5 : Nat) ≤ connC3.SBUF.maxDlen ∧ (20 : Nat) ≠ 0 ∧ (20 : Nat) ≤ sub32 50 0 ∧
      (getSnd connC3 (connC3.SND.NXT % connC3.SND.MAX)).onTheWire = false) ∧
    (sendData 0 50 ER_OK connC3 300 5 20).1 = ER_ARDP_TTL_EXPIRED ∧
    (sendData 0 50 ER_OK connC3 300 5 20).2.2 = [] ∧
    (sendData 0 50 ER_OK connC3 300 5 20).2.1.SBUF.pending = connC3.SBUF.pending := by
  have h := c4_ttl_expired_atomic 0 50 ER_OK connC3 300 5 20 (by decide) (by decide)
    (by decide) (by decide) (by decide) (by decide) (by decide) (by decide)
  exact ⟨by decide, h.1, h.2.1, h.2.2.2.1⟩

theorem sub32_of_le (a b : Nat) (hba : b ≤ a) (ha : a < U32) : sub32 a b = a - b := by
  simp only [sub32, U32] at *
  omega

theorem sub32_of_lt (a b : Nat) (hab : a < b) (hb : b < U32) :
    sub32 a b = U32 - (b - a) := by
  simp only [sub32, U32] at *
  omega

theorem add32_of_lt (a b : Nat) (h : a + b < U32) : add32 a b = a + b := by
  simp only [add32, U32] at *
  omega

theorem seq32LT_eq_false (a b : Nat) (hba : b ≤ a) (ha : a < U32)
    (hd : a - b < 2147483648) : seq32LT a b = false := by
  simp only [seq32LT, sub32, U32] at *
  simp only [decide_eq_false_iff_not]
  omega

theorem seq32LT_eq_true (a b : Nat) (hab : a < b) (hb : b < U32)
    (hd : b - a ≤ 2147483648) : seq32LT a b = true := by
  simp only [seq32LT, sub32, U32] at *
  simp only [decide_eq_true_eq]
  omega

@[simp]
theorem rcvFrame_setRcv (c : ArdpConnRecord) (i : Nat) (s : ArdpRcvBuf) :
    rcvFrame (setRcv c i s) = rcvFrame c := rfl

@[simp]
theorem rcvFrame_addTimer (c : ArdpConnRecord) (ty : ArdpTimerType) (d n r : Nat)
    (sl : Option Nat) : rcvFrame (addTimer c ty d n r sl).1 = rcvFrame c := rfl

@[simp]
theorem rcvFrame_addRcvMskC (c : ArdpConnRecord) (d : Nat) :
    rcvFrame (addRcvMskC c d) = rcvFrame c := rfl

@[simp]
theorem rcvFrame_updateRcvMskC (c : ArdpConnRecord) (d : Nat) :
    rcvFrame (updateRcvMskC c d) = rcvFrame c := rfl

theorem rcvFrame_markDelivered : ∀ (n : Nat) (c : ArdpConnRecord) (idx : Nat),
    rcvFrame (markDelivered c idx n) = rcvFrame c := by
  intro n
  induction n with
  | zero => intro c idx; rfl
  | succ m ih =>
    intro c idx
    simp only [markDelivered]
    rw [ih]
    rfl

@[simp]
theorem rcvFrame_setCUR (c : ArdpConnRecord) (v : Nat) :
    rcvFrame { c with RCV := { c.RCV with CUR := v } } = rcvFrame c := rfl

theorem rcvFrame_walk (cb : Nat → Bool) (now s1 s2 : Nat) :
    ∀ (fuel idx delta : Nat) (deliver : Bool) (c : ArdpConnRecord) (evs : List Event),
      rcvFrame (walk cb now s1 s2 fuel idx delta deliver c evs).1 = rcvFrame c := by
  intro fuel
  induction fuel with
  | zero => intro idx delta deliver c evs; rfl
  | succ n ih =>
    intro idx delta deliver c evs
    simp only [walk]
    split_ifs <;>
      simp only [ih, rcvFrame_setRcv, rcvFrame_addTimer, rcvFrame_markDelivered,
        rcvFrame_setCUR]

@[simp]
theorem walk_first (cb : Nat → Bool) (now s1 s2 fuel idx delta : Nat) (deliver : Bool)
    (c : ArdpConnRecord) (evs : List Event) :
    (walk cb now s1 s2 fuel idx delta deliver c evs).1.RBUF.first = c.RBUF.first :=
  congrArg Prod.fst (rcvFrame_walk cb now s1 s2 fuel idx delta deliver c evs)

@[simp]
theorem walk_last (cb : Nat → Bool) (now s1 s2 fuel idx delta : Nat) (deliver : Bool)
    (c : ArdpConnRecord) (evs : List Event) :
    (walk cb now s1 s2 fuel idx delta deliver c evs).1.RBUF.last = c.RBUF.last :=
  congrArg (fun p => p.2.1) (rcvFrame_walk cb now s1 s2 fuel idx delta deliver c evs)

@[simp]
theorem walk_rcvMAX (cb : Nat → Bool) (now s1 s2 fuel idx delta : Nat) (deliver : Bool)
    (c : ArdpConnRecord) (evs : List Event) :
    (walk cb now s1 s2 fuel idx delta deliver c evs).1.RCV.MAX = c.RCV.MAX :=
  congrArg (fun p => p.2.2) (rcvFrame_walk cb now s1 s2 fuel idx delta deliver c evs)

@[simp]
theorem updateRcvMskC_first (c : ArdpConnRecord) (d : Nat) :
    (updateRcvMskC c d).RBUF.first = c.RBUF.first := rfl

@[simp]
theorem updateRcvMskC_last (c : ArdpConnRecord) (d : Nat) :
    (updateRcvMskC c d).RBUF.last = c.RBUF.last := rfl

@[simp]
theorem updateRcvMskC_rcvMAX (c : ArdpConnRecord) (d : Nat) :
    (updateRcvMskC c d).RCV.MAX = c.RCV.MAX := rfl

@[simp]
theorem addRcvMskC_first (c : ArdpConnRecord) (d : Nat) :
    (addRcvMskC c d).RBUF.first = c.RBUF.first := rfl

@[simp]
theorem addRcvMskC_last (c : ArdpConnRecord) (d : Nat) :
    (addRcvMskC c d).RBUF.last = c.RBUF.last := rfl

@[simp]
theorem addRcvMskC_rcvMAX (c : ArdpConnRecord) (d : Nat) :
    (addRcvMskC c d).RCV.MAX = c.RCV.MAX := rfl

@[simp]
theorem setRcv_first (c : ArdpConnRecord) (i : Nat) (s : ArdpRcvBuf) :
    (setRcv c i s).RBUF.first = c.RBUF.first := rfl

@[simp]
theorem setRcv_last (c : ArdpConnRecord) (i : Nat) (s : ArdpRcvBuf) :
    (setRcv c i s).RBUF.last = c.RBUF.last := rfl

@[simp]
theorem setRcv_rcvMAX (c : ArdpConnRecord) (i : Nat) (s : ArdpRcvBuf) :
    (setRcv c i s).RCV.MAX = c.RCV.MAX := rfl

/-- A successful AddRcvBuffer returns ok, leaves RBUF.first and RCV.MAX
untouched, raises RBUF.last to the segment's sequence when the latter is
beyond it, and recomputes the window from those quantities in uint32
arithmetic -- the delivery walk and EACK-mask updates do not touch the frame. -/
theorem addRcvBuffer_ok (recvCb : Nat → Bool) (now : Nat) (c : ArdpConnRecord)
    (seg : ArdpSeg) (ordered : Bool)
    (hg1 : ¬ (c.RBUF.window = 0 ∧ seq32LT seg.SEQ c.RBUF.last = false))
    (hg2 : seg.DLEN ≤ c.RBUF.MAX) :
    (addRcvBuffer recvCb now c seg ordered).1 = ER_OK ∧
    (addRcvBuffer recvCb now c seg ordered).2.1.RBUF.first = c.RBUF.first ∧
    (addRcvBuffer recvCb now c seg ordered).2.1.RBUF.last =
      (if seq32LT c.RBUF.last seg.SEQ then seg.SEQ else c.RBUF.last) ∧
    (addRcvBuffer recvCb now c seg ordered).2.1.RCV.MAX = c.RCV.MAX ∧
    (addRcvBuffer recvCb now c seg ordered).2.1.RBUF.window =
      sub32 c.RCV.MAX
        (add32 (sub32 (if seq32LT c.RBUF.last seg.SEQ then seg.SEQ else c.RBUF.last)
          c.RBUF.first) 1) := by
  simp only [addRcvBuffer]
  rw [if_neg hg1, if_neg (Nat.not_lt.mpr hg2)]
  split_ifs <;> simp

theorem releaseLoop_spec : ∀ (n idx : Nat) (c : ArdpConnRecord),
    c.RBUF.first + n < U32 →
    rcvFrame (releaseLoop idx n c) = (c.RBUF.first + n, c.RBUF.last, c.RCV.MAX) := by
  intro n
  induction n with
  | zero => intro idx c h; simp [releaseLoop, rcvFrame]
  | succ m ih =>
    intro idx c h
    simp only [releaseLoop]
    rw [ih]
    · simp only [rcvFrame, setRcv]
      rw [add32_of_lt _ _ (by omega)]
      simp
      omega
    · simp only [setRcv]
      rw [add32_of_lt _ _ (by omega)]
      omega

/-- C8: after every UpdateRcvBuffers call (releasing an in-order consumed
buffer of fcnt slots that are all buffered) and after every successful
AddRcvBuffer call (storing a segment inside the receive window), the
receive-window accounting invariant holds: window = RCV.MAX - (last - first
+ 1) when the ring is non-empty, and window = RCV.MAX with last = first when
it is empty. -/
theorem c8_window_invariant (c : ArdpConnRecord) (k : Nat) (recvCb : Nat → Bool)
    (now : Nat) (seg : ArdpSeg) (ordered : Bool)
    (hM0 : 0 < c.RCV.MAX) (hM31 : c.RCV.MAX ≤ 2147483648)
    (hFL : c.RBUF.first ≤ c.RBUF.last)
    (hLW : c.RBUF.last < c.RBUF.first + c.RCV.MAX)
    (hLU : c.RBUF.last < U32) :
    (c.RBUF.first + (getRcv c k).fcnt < U32 →
      (getRcv c k).seq = c.RBUF.first →
      c.RBUF.first % c.RCV.MAX = k →
      1 ≤ (getRcv c k).fcnt →
      (getRcv c k).fcnt + c.RBUF.first ≤ c.RBUF.last + 1 →
      (updateRcvBuffers c k).status = ER_OK ∧
      (updateRcvBuffers c k).conn.RCV.MAX = c.RCV.MAX ∧
      windowInv (updateRcvBuffers c k).conn) ∧
    (seg.SEQ < c.RBUF.first + c.RCV.MAX → c.RBUF.first ≤ seg.SEQ → seg.SEQ < U32 →
      ¬ (c.RBUF.window = 0 ∧ seq32LT seg.SEQ c.RBUF.last = false) →
      seg.DLEN ≤ c.RBUF.MAX →
      (addRcvBuffer recvCb now c seg ordered).1 = ER_OK ∧
      (addRcvBuffer recvCb now c seg ordered).2.1.RCV.MAX = c.RCV.MAX ∧
      windowInv (addRcvBuffer recvCb now c seg ordered).2.1) := by
  have hU32 : U32 = 4294967296 := rfl
  constructor
  · intro h6 h7 h8 h9 h10
    have hrel := releaseLoop_spec (getRcv c k).fcnt k c h6
    simp only [rcvFrame, Prod.mk.injEq] at hrel
    obtain ⟨hf1, hl1, hm1⟩ := hrel
    simp only [updateRcvBuffers]
    rw [h7, h8]
    rw [if_neg (by simp)]
    rw [hf1, hl1, hm1]
    by_cases hemp : (getRcv c k).fcnt + c.RBUF.first = c.RBUF.last + 1
    · rw [seq32LT_eq_true c.RBUF.last (c.RBUF.first + (getRcv c k).fcnt) (by omega)
        (by omega) (by omega)]
      rw [if_pos rfl]
      exact ⟨rfl, hm1, Or.inl ⟨rfl, hm1.symm⟩⟩
    · have hle : c.RBUF.first + (getRcv c k).fcnt ≤ c.RBUF.last := by omega
      rw [seq32LT_eq_false c.RBUF.last (c.RBUF.first + (getRcv c k).fcnt) (by omega) hLU
        (by omega)]
      rw [if_neg (by simp)]
      refine ⟨rfl, hm1, Or.inr ⟨hle, ?_⟩⟩
      show sub32 c.RCV.MAX (add32 (sub32 c.RBUF.last (c.RBUF.first + (getRcv c k).fcnt)) 1)
        + (c.RBUF.last - (c.RBUF.first + (getRcv c k).fcnt) + 1)
        = (releaseLoop k (getRcv c k).fcnt c).RCV.MAX
      rw [hm1, sub32_of_le _ _ hle hLU, add32_of_lt _ _ (by omega), sub32_of_le _ _ (by omega)
        (by omega)]
      omega
  · intro hA6 hA5 hA7 hg1 hg2
    obtain ⟨e0, e1, e2, e3, e4⟩ := addRcvBuffer_ok recvCb now c seg ordered hg1 hg2
    refine ⟨e0, e3, ?_⟩
    have hb1 : c.RBUF.first ≤ (if seq32LT c.RBUF.last seg.SEQ then seg.SEQ else c.RBUF.last)
      := by split_ifs <;> omega
    have hb2 : (if seq32LT c.RBUF.last seg.SEQ then seg.SEQ else c.RBUF.last)
        < c.RBUF.first + c.RCV.MAX := by split_ifs <;> omega
    have hb3 : (if seq32LT c.RBUF.last seg.SEQ then seg.SEQ else c.RBUF.last) < U32 := by
      split_ifs <;> omega
    refine Or.inr ⟨?_, ?_⟩
    · rw [e1, e2]; exact hb1
    · rw [e4, e1, e2, e3]
      rw [sub32_of_le _ _ hb1 hb3, add32_of_lt _ _ (by omega), sub32_of_le _ _ (by omega)
        (by omega)]
      omega

/-- C8 witness: the theorem applied to connC9 -- an in-order release of the
fcnt = 1 buffer at slot 1, and an out-of-order AddRcvBuffer of segC8 --
discharging each hypothesis there. -/
theorem c8_window_invariant_witness :
    (0 < connC9.RCV.MAX ∧ connC9.RCV.MAX ≤ 2147483648 ∧
      connC9.RBUF.first ≤ connC9.RBUF.last ∧
      connC9.RBUF.last < connC9.RBUF.first + connC9.RCV.MAX ∧ connC9.RBUF.last < U32 ∧
      connC9.RBUF.first + (getRcv connC9 1).fcnt < U32 ∧
      (getRcv connC9 1).seq = connC9.RBUF.first ∧
      connC9.RBUF.first % connC9.RCV.MAX = 1 ∧ 1 ≤ (getRcv connC9 1).fcnt ∧
      (getRcv connC9 1).fcnt + connC9.RBUF.first ≤ connC9.RBUF.last + 1) ∧
    ((updateRcvBuffers connC9 1).status = ER_OK ∧
      windowInv (updateRcvBuffers connC9 1).conn) ∧
    ((addRcvBuffer (fun _ => true) 0 connC9 segC8 false).1 = ER_OK ∧
      windowInv (addRcvBuffer (fun _ => true) 0 connC9 segC8 false).2.1) := by
  have h := c8_window_invariant connC9 1 (fun _ => true) 0 segC8 false (by decide)
    (by decide) (by decide) (by decide) (by decide)
  have h1 := h.1 (by decide) (by decide) (by decide) (by decide) (by decide)
  have h2 := h.2 (by decide) (by decide) (by decide) (by decide) (by decide)
  exact ⟨by decide, ⟨h1.1, h1.2.2⟩, ⟨h2.1, h2.2.2⟩⟩

theorem foldMinWhen_cons (acc : Nat) (t : ArdpTimer) (ts : List ArdpTimer) :
    foldMinWhen acc (t :: ts) = foldMinWhen (if t.when < acc then t.when else acc) ts := rfl

theorem foldMinWhen_le_init : ∀ (ts : List ArdpTimer) (acc : Nat), foldMinWhen acc ts ≤ acc := by
  intro ts
  induction ts with
  | nil => intro acc; exact Nat.le_refl acc
  | cons t ts ih =>
    intro acc
    rw [foldMinWhen_cons]
    refine Nat.le_trans (ih _) ?_
    split_ifs <;> omega

theorem foldMinWhen_le_mem : ∀ (ts : List ArdpTimer) (acc : Nat) (t : ArdpTimer),
    t ∈ ts → foldMinWhen acc ts ≤ t.when := by
  intro ts
  induction ts with
  | nil => intro acc t h; cases h
  | cons u ts ih =>
    intro acc t h
    rw [foldMinWhen_cons]
    rcases List.mem_cons.mp h with h1 | h1
    · subst h1
      refine Nat.le_trans (foldMinWhen_le_init _ _) ?_
      split_ifs <;> omega
    · exact ih _ t h1

theorem lt_foldMinWhen : ∀ (ts : List ArdpTimer) (acc now : Nat), now < acc →
    (∀ t ∈ ts, now < t.when) → now < foldMinWhen acc ts := by
  intro ts
  induction ts with
  | nil => intro acc now h _; exact h
  | cons t ts ih =>
    intro acc now h hall
    rw [foldMinWhen_cons]
    refine ih _ now ?_ (fun u hu => hall u (List.mem_cons_of_mem t hu))
    have := hall t (List.mem_cons_self t ts)
    split_ifs <;> omega

theorem checkGo_no_due (hrun : ArdpTimerType → ArdpTimer → Option ArdpTimer) (now : Nat) :
    ∀ (ts : List ArdpTimer) (next : Nat) (s : Bool), (∀ t ∈ ts, now < t.when) →
      checkGo hrun now ts next s = (ts, foldMinWhen next ts, true) := by
  intro ts
  induction ts with
  | nil => intro next s _; rfl
  | cons t ts ih =>
    intro next s h
    simp only [checkGo]
    rw [if_neg (by have := h t (List.mem_cons_self t ts); omega)]
    rw [ih _ true (fun u hu => h u (List.mem_cons_of_mem t hu))]
    rfl

/-- C7 amended: on a timer-check pass at time now, CheckConnTimers invokes the
handler of every due timer; the pass itself never changes retry (handlers own
retry updates): after the handler a timer whose retry is 0 is deleted and one
with positive retry is rescheduled at now + delta; the value returned for one
connection is min(bound, the visited deadlines) - now (the no-timeout sentinel
when no deadline is seen), and CheckTimers seeds the bound with the sentinel
and feeds each connection's relative result to the next connection's pass as
an absolute bound, so only for a single connection (shown here: one whose
timers all lie in the future, and one with a single due timer) does the
returned value equal the minimum future deadline minus now. -/
theorem c7_timer_pass_amended (hrun : ArdpTimerType → ArdpTimer → Option ArdpTimer)
    (now : Nat) (c : ArdpConnRecord) (t t2 : ArdpTimer) :
    (c.timers ≠ [] → (∀ u ∈ c.timers, now < u.when) →
      (∀ u ∈ c.timers, u.when < ardpNoTimeout) →
      (checkTimers hrun now [c]).1 = [c] ∧
      (checkTimers hrun now [c]).2 = foldMinWhen ardpNoTimeout c.timers - now) ∧
    (c.timers = [t] → t.when ≤ now → hrun t.type t = some t2 →
      ((t2.retry = 0 →
        (checkTimers hrun now [c]).1 = [{ c with timers := [] }] ∧
        (checkTimers hrun now [c]).2 = ardpNoTimeout) ∧
       (t2.retry ≠ 0 → now + t2.delta < ardpNoTimeout →
        (checkTimers hrun now [c]).1
          = [{ c with timers := [{ t2 with when := now + t2.delta }] }] ∧
        (checkTimers hrun now [c]).2 = t2.delta))) := by
  have hU32 : U32 = 4294967296 := rfl
  have hNT : ardpNoTimeout = 4294967295 := rfl
  constructor
  · intro hne hfut hbound
    have hnowlt : now < ardpNoTimeout := by
      obtain ⟨t0, ts0, hct⟩ : ∃ t0 ts0, c.timers = t0 :: ts0 := by
        cases hct : c.timers with
        | nil => exact absurd hct hne
        | cons a l => exact ⟨a, l, rfl⟩
      have h1 := hfut t0 (by rw [hct]; exact List.mem_cons_self t0 ts0)
      have h2 := hbound t0 (by rw [hct]; exact List.mem_cons_self t0 ts0)
      omega
    have hisem : c.timers.isEmpty = false := by
      cases hct : c.timers with
      | nil => exact absurd hct hne
      | cons a l => rfl
    have hfoldlt : foldMinWhen ardpNoTimeout c.timers < ardpNoTimeout := by
      obtain ⟨t0, ts0, hct⟩ : ∃ t0 ts0, c.timers = t0 :: ts0 := by
        cases hct : c.timers with
        | nil => exact absurd hct hne
        | cons a l => exact ⟨a, l, rfl⟩
      have h1 := foldMinWhen_le_mem c.timers ardpNoTimeout t0
        (by rw [hct]; exact List.mem_cons_self t0 ts0)
      have h2 := hbound t0 (by rw [hct]; exact List.mem_cons_self t0 ts0)
      omega
    have hfoldgt : now < foldMinWhen ardpNoTimeout c.timers :=
      lt_foldMinWhen c.timers ardpNoTimeout now hnowlt hfut
    simp only [checkTimers, checkTimersGo, checkConnTimers, hisem, Bool.false_eq_true,
      if_false]
    rw [checkGo_no_due hrun now c.timers ardpNoTimeout false hfut]
    dsimp only
    rw [if_pos (by omega : foldMinWhen ardpNoTimeout c.timers ≠ ardpNoTimeout)]
    rw [sub32_of_le (foldMinWhen ardpNoTimeout c.timers) now (by omega) (by omega)]
    constructor <;> simp
  · intro hct hdue hh
    constructor
    · intro hr0
      simp only [checkTimers, checkTimersGo, checkConnTimers, hct, checkGo, hh,
        if_pos hdue, hr0]
      simp
    · intro hr0 hlt
      have hw : ({ t2 with when := now + t2.delta } : ArdpTimer).when = now + t2.delta := rfl
      simp only [checkTimers, checkTimersGo, checkConnTimers, hct, checkGo, hh,
        if_pos hdue]
      rw [if_neg hr0]
      simp only [checkGo, hw]
      rw [if_pos hlt]
      have hne2 : now + t2.delta ≠ ardpNoTimeout := by omega
      rw [if_pos hne2]
      rw [sub32_of_le (now + t2.delta) now (by omega) (by omega)]
      constructor <;> simp <;> omega

/-- C7 amended witness: the theorem applied to connT1 (single future timer,
deadline 1000, now 100: result 900) and to connT3 (single due timer with
retries left under a handler that keeps it: result its delta), discharging
each hypothesis there. -/
theorem c7_timer_pass_amended_witness :
    ((connT1.timers ≠ [] ∧ (∀ u ∈ connT1.timers, 100 < u.when) ∧
       (∀ u ∈ connT1.timers, u.when < ardpNoTimeout)) ∧
      (checkTimers hrunKeep 100 [connT1]).1 = [connT1] ∧
      (checkTimers hrunKeep 100 [connT1]).2
        = foldMinWhen ardpNoTimeout connT1.timers - 100) ∧
    ((connT3.timers = [timerT3] ∧ timerT3.when ≤ 100 ∧
       hrunKeep timerT3.type timerT3 = some timerT3 ∧ timerT3.retry ≠ 0 ∧
       100 + timerT3.delta < ardpNoTimeout) ∧
      (checkTimers hrunKeep 100 [connT3]).2 = timerT3.delta) := by
  have ha := (c7_timer_pass_amended hrunKeep 100 connT1 timerT3 timerT3).1
    (by decide) (by decide) (by decide)
  have hb := (((c7_timer_pass_amended hrunKeep 100 connT3 timerT3 timerT3).2
    rfl (by decide) rfl).2 (by decide) (by decide)).2
  exact ⟨⟨⟨by decide, by decide, by decide⟩, ha.1, ha.2⟩,
    ⟨⟨rfl, by decide, rfl, by decide, by decide⟩, hb⟩⟩

/-- C6 amended: ARDP_Run writes the CheckTimers result through ms first; with
the socket not ready it fires timers only and returns ER_FAIL, consuming
nothing; with the socket ready it stops at the first WouldBlock (returning
ER_OK), propagates any other recv failure, and dispatches AT MOST ONE
datagram -- a valid-sized datagram matching a connection is handed over and
run returns that dispatch's status immediately, leaving the rest of the
socket queue unread. -/
theorem c6_run_amended (hrun : ArdpTimerType → ArdpTimer → Option ArdpTimer)
    (h : ArdpHandleM) (now : Nat) (rst s : QStatus) (rest q : List RecvOutcome)
    (n dst src : Nat) (ok : Bool) :
    (ardpRun hrun h now rst false q).status = ER_FAIL ∧
    (ardpRun hrun h now rst false q).remaining = q ∧
    (ardpRun hrun h now rst false q).dispatched = [] ∧
    (ardpRun hrun h now rst false q).ms = (checkTimers hrun now h.conns).2 ∧
    (ardpRun hrun h now rst true (RecvOutcome.wouldBlock :: rest)).status = ER_OK ∧
    (ardpRun hrun h now rst true (RecvOutcome.wouldBlock :: rest)).remaining = rest ∧
    (ardpRun hrun h now rst true (RecvOutcome.failed s :: rest)).status = s ∧
    (ardpRun hrun h now rst true (RecvOutcome.failed s :: rest)).remaining = rest ∧
    (0 < n → n < 65536 → dst ≠ 0 →
      ∀ i, findConnIdx (checkTimers hrun now h.conns).1 dst src = some i →
      (ardpRun hrun h now rst true (RecvOutcome.dgram n dst src ok :: rest)).status
        = ER_OK ∧
      (ardpRun hrun h now rst true (RecvOutcome.dgram n dst src ok :: rest)).remaining
        = rest ∧
      (ardpRun hrun h now rst true (RecvOutcome.dgram n dst src ok :: rest)).dispatched
        = [(dst, src)]) := by
  refine ⟨rfl, rfl, rfl, rfl, rfl, rfl, rfl, rfl, ?_⟩
  intro hn1 hn2 hd i hf
  have hnn : 0 < n ∧ n < 65536 := ⟨hn1, hn2⟩
  simp only [ardpRun, runLoop]
  rw [if_pos hnn, if_neg hd, hf]
  exact ⟨rfl, rfl, rfl⟩

/-- C6 amended witness: the theorem applied to hC6 and queueC6, discharging
each hypothesis there. -/
theorem c6_run_amended_witness :
    ((0 : Nat) < 100 ∧ (100 : Nat) < 65536 ∧ (5 : Nat) ≠ 0 ∧
      findConnIdx (checkTimers hrunKeep 0 hC6.conns).1 5 7 = some 0) ∧
    ((ardpRun hrunKeep hC6 0 ER_OK true queueC6).status = ER_OK ∧
     (ardpRun hrunKeep hC6 0 ER_OK true queueC6).remaining
       = [RecvOutcome.dgram 100 5 7 true, RecvOutcome.wouldBlock] ∧
     (ardpRun hrunKeep hC6 0 ER_OK true queueC6).dispatched = [(5, 7)]) := by
  have h9 := (c6_run_amended hrunKeep hC6 0 ER_OK ER_OK
    [RecvOutcome.dgram 100 5 7 true, RecvOutcome.wouldBlock] queueC6 100 5 7
    true).2.2.2.2.2.2.2.2 (by decide) (by decide) (by decide) 0 (by decide)
  exact ⟨by decide, h9.1, h9.2.1, h9.2.2⟩

end Ardp
